import Mathlib

/-!
Verification of the AUROC-difference chart component (`src/plot.js`).

The component loads a CSV of paired model scores, maps each parsed row to a
`ComparisonRow` (deriving `difference = neuralNet - xgboost`), computes the
average of the non-NaN differences, and renders counts of positive, negative
and zero differences.

Modelling choices:
* A JavaScript value appearing in a parsed row is a `JSVal`: a finite number
  (modelled as an exact rational), `NaN`, a string, a boolean, `null` or
  `undefined`.  IEEE-754 rounding and the infinities are outside the model;
  every arithmetic law proved here is at the exact-rational level.
* For the concrete two-row scenario, the inputs are the binary64 doubles
  that the decimal literals denote; on those inputs every arithmetic step
  of the pipeline (two Sterbenz-exact subtractions, an accumulation whose
  exact sum has a 49-bit mantissa, and a halving) is exact in binary64,
  so the exact-rational results coincide with the program's doubles.
* The result of a JavaScript arithmetic operation is a `JSNum`:
  `Option ℚ` with `none` playing the role of `NaN`.
* Equality of values is Lean equality (SameValue semantics: `NaN` is equal
  to itself), not the `==` operator of JavaScript.
* The CSV parser (`Papa.parse`) and the file reader (`window.fs.readFile`)
  are external collaborators; `loadData` is parameterised by the parse
  function, and the read result is an `Except` whose `error` case models a
  rejection caught by the `try`/`catch` of `loadData`.
-/

/-- A JavaScript value as it can appear in a row produced by
`Papa.parse` with `dynamicTyping: true` (number, string, boolean, null),
together with `undefined` for an absent column and `NaN`.
Finite numbers are modelled as exact rationals. -/
inductive JSVal where
  | num (q : ℚ)
  | nan
  | str (s : String)
  | bool (b : Bool)
  | null
  | undef
deriving DecidableEq

/-- The result of a JavaScript arithmetic operation: a finite number, or
`none` for `NaN`. -/
abbrev JSNum := Option ℚ

/-- A parsed CSV row: a mapping from column name to value, `undefined`
for a column that is not present. -/
abbrev RawRow := String → JSVal

/-- JavaScript truthiness, as used by the `||` operator: `0`, `NaN`, the
empty string, `false`, `null` and `undefined` are falsy. -/
def truthy : JSVal → Bool
  | JSVal.num q => decide (q ≠ 0)
  | JSVal.nan => false
  | JSVal.str s => !s.isEmpty
  | JSVal.bool b => b
  | JSVal.null => false
  | JSVal.undef => false

/-- The JavaScript `a || b`: `a` if truthy, else `b`. -/
def jsOr (a b : JSVal) : JSVal := if truthy a then a else b

/-- Numeric value of a list of decimal digit characters. -/
def digitsVal (cs : List Char) : ℕ :=
  cs.foldl (fun a c => 10 * a + (c.toNat - 48)) 0

/-- Parse an unsigned decimal literal (digits, optionally with a fractional
part) as JavaScript `Number` would; `none` for a non-numeric string. -/
def parseUnsigned (cs : List Char) : Option ℚ :=
  let intPart := cs.takeWhile Char.isDigit
  let rest := cs.dropWhile Char.isDigit
  match rest with
  | [] => if intPart.isEmpty then none else some (digitsVal intPart)
  | '.' :: frac =>
    if frac.all Char.isDigit && !(intPart.isEmpty && frac.isEmpty) then
      some ((digitsVal intPart : ℚ) + (digitsVal frac : ℚ) / ((10 : ℚ) ^ frac.length))
    else none
  | _ => none

/-- JavaScript `ToNumber` on a string: whitespace-only is `0`, otherwise a
signed decimal literal; anything else is `NaN`.  (Hexadecimal and exponent
forms are outside the modelled subset; with `dynamicTyping` those would
already have been converted to numbers by the parser.) -/
def strToNumber (s : String) : Option ℚ :=
  let t := s.trim
  if t.isEmpty then some 0
  else
    match t.data with
    | '-' :: cs => (parseUnsigned cs).map (fun q => -q)
    | '+' :: cs => parseUnsigned cs
    | cs => parseUnsigned cs

/-- JavaScript `ToNumber`, as applied by the arithmetic operators. -/
def toNumber : JSVal → JSNum
  | JSVal.num q => some q
  | JSVal.nan => none
  | JSVal.str s => strToNumber s
  | JSVal.bool b => some (if b then 1 else 0)
  | JSVal.null => some 0
  | JSVal.undef => none

/-- The JavaScript `a - b`: both operands coerced with `ToNumber`; `NaN`
absorbs. -/
def jsSub (a b : JSVal) : JSNum :=
  match toNumber a, toNumber b with
  | some x, some y => some (x - y)
  | _, _ => none

/-- The JavaScript `sum + val` of the reduce in `avgDiff` (both operands
already numbers; `NaN` absorbs). -/
def jsAdd (a b : JSNum) : JSNum :=
  match a, b with
  | some x, some y => some (x + y)
  | _, _ => none

/-- `isNaN(d)` for a number `d`. -/
def jsIsNaN (d : JSNum) : Bool := d.isNone

/-- `d > 0` for a number `d` (`false` on `NaN`). -/
def jsGtZero (d : JSNum) : Bool :=
  match d with
  | some x => decide (0 < x)
  | none => false

/-- `d < 0` for a number `d` (`false` on `NaN`). -/
def jsLtZero (d : JSNum) : Bool :=
  match d with
  | some x => decide (x < 0)
  | none => false

/-- `d === 0` for a number `d` (`false` on `NaN`). -/
def jsEqZero (d : JSNum) : Bool :=
  match d with
  | some x => decide (x = 0)
  | none => false

/-- One element of `processedData` (`src/plot.js` lines 29-35). -/
structure ComparisonRow where
  rowIndex : JSVal
  xgboost : JSVal
  neuralNet : JSVal
  difference : JSNum
  originalDifference : JSVal
deriving DecidableEq

/-- The per-row body of the `parsed.data.map((row, index) => ...)` callback
(`src/plot.js` lines 25-36). -/
def processRow (index : ℕ) (row : RawRow) : ComparisonRow :=
  let nnMinusXgb :=
    jsSub (jsOr (row "Neural Net (AUROC)") (JSVal.num 0))
          (jsOr (row "Xgboost (AUROC)") (JSVal.num 0))
  { rowIndex :=
      if row "Row Index" = JSVal.undef then JSVal.num index else row "Row Index"
  , xgboost := jsOr (row "Xgboost (AUROC)") (JSVal.num 0)
  , neuralNet := jsOr (row "Neural Net (AUROC)") (JSVal.num 0)
  , difference := nnMinusXgb
  , originalDifference := jsOr (row "Difference") (JSVal.num 0) }

/-- `Array.prototype.map` with the element index, starting from `i`:
the recursion underlying `processedData`. -/
def processedDataFrom (i : ℕ) : List RawRow → List ComparisonRow
  | [] => []
  | row :: rest => processRow i row :: processedDataFrom (i + 1) rest

/-- `processedData` (`src/plot.js` lines 25-36): map each raw row, with its
zero-based index, through `processRow`. -/
def processedData (rows : List RawRow) : List ComparisonRow :=
  processedDataFrom 0 rows

/-- `validDifferences` (`src/plot.js` lines 39-41): the differences of the
processed rows, with the `NaN` entries filtered out. -/
def validDifferences (processed : List ComparisonRow) : List JSNum :=
  (processed.map (fun d => d.difference)).filter (fun d => !jsIsNaN d)

/-- JavaScript division of a number by a list length, as in `avgDiff`.
When the length is `0` the dividend there is the sum of an empty reduce,
namely `0`, and `0 / 0` is `NaN`; the infinite quotients never arise. -/
def jsDivLen (a : JSNum) (n : ℕ) : JSNum :=
  match a with
  | some x => if n = 0 then none else some (x / (n : ℚ))
  | none => none

/-- `avgDiff` (`src/plot.js` line 43):
`validDifferences.reduce((sum, val) => sum + val, 0) / validDifferences.length`. -/
def avgDiff (processed : List ComparisonRow) : JSNum :=
  let valid := validDifferences processed
  jsDivLen (valid.foldl jsAdd (some 0)) valid.length

/-- The count rendered as "Deep Learning Wins"
(`src/plot.js` line 173): rows with `difference > 0`. -/
def winCount (data : List ComparisonRow) : ℕ :=
  (data.filter (fun d => jsGtZero d.difference)).length

/-- The count rendered as "XGBoost Wins"
(`src/plot.js` line 183): rows with `difference < 0`. -/
def lossCount (data : List ComparisonRow) : ℕ :=
  (data.filter (fun d => jsLtZero d.difference)).length

/-- The count rendered as "Tied Performance"
(`src/plot.js` line 193): rows with `difference === 0`. -/
def tieCount (data : List ComparisonRow) : ℕ :=
  (data.filter (fun d => jsEqZero d.difference)).length

/-- The component state: the three `useState` hooks of `AUROCDifferencePlot`
(`src/plot.js` lines 6-8). -/
structure ComponentState where
  data : List ComparisonRow
  avgDifference : JSNum
  loading : Bool
deriving DecidableEq

/-- The initial state: `useState([])`, `useState(0)`, `useState(true)`. -/
def initialState : ComponentState :=
  { data := [], avgDifference := some 0, loading := true }

/-- `loadData` (`src/plot.js` lines 11-52) as a state transition.  The file
read is modelled by its outcome `readResult`; an `Except.error` is any
rejection of the `await`ed read (or of a later step), landing in the
`catch` block, which only logs and clears the loading flag.  The CSV parse
is an injected capability `parse` (the external `Papa.parse`); the logging
of `parsed.errors` has no effect on the state and is omitted.  The function
is total: no exception escapes to the caller. -/
def loadData (parse : String → List RawRow) (readResult : Except String String)
    (s : ComponentState) : ComponentState :=
  match readResult with
  | Except.ok fileContent =>
    let processed := processedData (parse fileContent)
    { data := processed, avgDifference := avgDiff processed, loading := false }
  | Except.error _ => { s with loading := false }

/-- The arithmetic mean written the way the specification states it: the
sum of the defined (non-`NaN`) differences divided by their count, `NaN`
when there are none.  Stated from the spec for comparison with `avgDiff`. -/
def specMean (ds : List JSNum) : JSNum :=
  let vs := ds.filterMap id
  if vs.length = 0 then none else some (vs.sum / (vs.length : ℚ))

/-- Replace the value of one column of a row. -/
def updateCol (row : RawRow) (c : String) (v : JSVal) : RawRow :=
  fun x => if x = c then v else row x

/-- A small concrete dataset with one positive, one negative and one zero
difference. -/
def sampleData : List ComparisonRow :=
  [⟨JSVal.num 0, JSVal.num 0, JSVal.num 0, some 1, JSVal.num 0⟩,
   ⟨JSVal.num 1, JSVal.num 0, JSVal.num 0, some (-2), JSVal.num 0⟩,
   ⟨JSVal.num 2, JSVal.num 0, JSVal.num 0, some 0, JSVal.num 0⟩]

/-- A row that carries a `Row Index` column with value `7`. -/
def rowWithIndex : RawRow :=
  fun c => if c = "Row Index" then JSVal.num 7 else JSVal.undef

/-- A row with no `Row Index` column. -/
def rowNoIndex : RawRow := fun _ => JSVal.undef

/-- Two raw rows agree on every column other than `Difference`. -/
def AgreeExceptDifference (r1 r2 : RawRow) : Prop :=
  ∀ c, c ≠ "Difference" → r1 c = r2 c

/-- A row whose `Difference` column is `5`. -/
def rowDiffFive : RawRow :=
  fun c => if c = "Difference" then JSVal.num 5
    else if c = "Neural Net (AUROC)" then JSVal.num 1 else JSVal.undef

/-- The same row except that its `Difference` column is `7`. -/
def rowDiffSeven : RawRow :=
  fun c => if c = "Difference" then JSVal.num 7
    else if c = "Neural Net (AUROC)" then JSVal.num 1 else JSVal.undef

/-- The binary64 double denoted by the literal `0.85`, as an exact
rational: `0.85 * 2^53 = 7656119366529843.2`, so round-to-nearest gives
mantissa `7656119366529843` (value ≈ 0.8499999999999999778). -/
def double085 : ℚ := 7656119366529843 / 2 ^ 53

/-- The binary64 double denoted by the literal `0.90`:
`0.90 * 2^53 = 8106479329266892.8` rounds to mantissa
`8106479329266893` (value ≈ 0.9000000000000000222). -/
def double090 : ℚ := 8106479329266893 / 2 ^ 53

/-- The binary64 double denoted by the literal `0.95`:
`0.95 * 2^53 = 8556839292003942.4` rounds to mantissa
`8556839292003942` (value ≈ 0.9499999999999999556). -/
def double095 : ℚ := 8556839292003942 / 2 ^ 53

/-- The binary64 double denoted by the literal `0.80`:
`0.80 * 2^53 = 7205759403792793.6` rounds to mantissa
`7205759403792794` (value ≈ 0.8000000000000000444). -/
def double080 : ℚ := 7205759403792794 / 2 ^ 53

/-- The first scenario row as the program receives it: `Row Index` 0,
XGBoost `0.90`, Neural Net `0.85` — the AUROC fields carry the binary64
doubles the decimal literals denote after parsing. -/
def ieeeRowZero : RawRow := fun c =>
  if c = "Row Index" then JSVal.num 0
  else if c = "Xgboost (AUROC)" then JSVal.num double090
  else if c = "Neural Net (AUROC)" then JSVal.num double085
  else JSVal.undef

/-- The second scenario row as the program receives it: `Row Index` 1,
XGBoost `0.80`, Neural Net `0.95`, again as binary64 doubles. -/
def ieeeRowOne : RawRow := fun c =>
  if c = "Row Index" then JSVal.num 1
  else if c = "Xgboost (AUROC)" then JSVal.num double080
  else if c = "Neural Net (AUROC)" then JSVal.num double095
  else JSVal.undef
/-- `processRow` builds `difference` from the two defaulted AUROC columns. -/
lemma processRow_difference (i : ℕ) (row : RawRow) :
    (processRow i row).difference
      = jsSub (jsOr (row "Neural Net (AUROC)") (JSVal.num 0))
              (jsOr (row "Xgboost (AUROC)") (JSVal.num 0)) := rfl

/-- `processRow` builds `rowIndex` from the `Row Index` column or the
position. -/
lemma processRow_rowIndex (i : ℕ) (row : RawRow) :
    (processRow i row).rowIndex
      = if row "Row Index" = JSVal.undef then JSVal.num i else row "Row Index" := rfl

/-- Updating one column leaves every other column unchanged. -/
lemma updateCol_other (row : RawRow) (c c2 : String) (v : JSVal) (h : c2 ≠ c) :
    updateCol row c v c2 = row c2 := by
  unfold updateCol
  rw [if_neg h]

/-- Every element surviving the `!isNaN` filter is a defined number. -/
lemma mem_filter_isSome (ds : List JSNum) :
    ∀ a ∈ ds.filter (fun d => !jsIsNaN d), a.isSome = true := by
  intro a ha
  have hp := (List.mem_filter.1 ha).2
  cases a with
  | none => simp [jsIsNaN] at hp
  | some x => rfl

/-- Filtering out the `NaN` entries and then extracting the defined values
extracts exactly the defined values. -/
lemma filterMap_filter_isSome (ds : List JSNum) :
    (ds.filter (fun d => !jsIsNaN d)).filterMap id = ds.filterMap id := by
  induction ds with
  | nil => rfl
  | cons a t ih =>
    cases a <;> simp [jsIsNaN] at ih ⊢ <;> exact ih

/-- The `!isNaN` filter keeps as many entries as there are defined values. -/
lemma length_filter_isSome (ds : List JSNum) :
    (ds.filter (fun d => !jsIsNaN d)).length = (ds.filterMap id).length := by
  induction ds with
  | nil => rfl
  | cons a t ih =>
    cases a <;> simp [jsIsNaN] at ih ⊢ <;> exact ih

/-- The reduce of `avgDiff` over defined numbers is the exact sum. -/
lemma foldl_jsAdd_eq_sum (l : List JSNum) (q : ℚ) (h : ∀ a ∈ l, a.isSome = true) :
    l.foldl jsAdd (some q) = some (q + (l.filterMap id).sum) := by
  induction l generalizing q with
  | nil => simp
  | cons a t ih =>
    obtain ⟨x, rfl⟩ := Option.isSome_iff_exists.1 (h a (List.mem_cons_self a t))
    have ht : ∀ b ∈ t, b.isSome = true := fun b hb => h b (List.mem_cons_of_mem _ hb)
    simp [jsAdd, ih (q + x) ht, add_assoc]

/-- When every difference is `NaN`, the computed average is `NaN`. -/
lemma avgDiff_eq_none_of_all_nan (p : List ComparisonRow)
    (h : ((p.map (fun r => r.difference)).all (fun d => jsIsNaN d)) = true) :
    avgDiff p = none := by
  have hnil : validDifferences p = [] := by
    unfold validDifferences
    rw [List.filter_eq_nil_iff]
    intro a ha
    have := List.all_eq_true.1 h a ha
    simp [this]
  unfold avgDiff
  rw [hnil]
  rfl

/-- C1: every `ComparisonRow` has `difference = neuralNet - xgboost`,
recomputed from the two defaulted AUROC fields — for every raw row,
including absent or non-numeric AUROC values — and never taken from the
file's own `Difference` column: replacing that column by any value leaves
the computed difference unchanged. -/
theorem difference_recomputed (i : ℕ) (row : RawRow) (v : JSVal) :
    (processRow i row).difference
      = jsSub (processRow i row).neuralNet (processRow i row).xgboost ∧
    (processRow i (updateCol row "Difference" v)).difference
      = (processRow i row).difference := by
  refine ⟨rfl, ?_⟩
  rw [processRow_difference, processRow_difference,
    updateCol_other row _ _ _ (by decide), updateCol_other row _ _ _ (by decide)]

/-- C2: `avgDiff` is the arithmetic mean (sum divided by count) of the
differences that are not `NaN`; when every difference is `NaN` — in
particular on an empty dataset — it is `NaN` rather than an error. -/
theorem avgDiff_is_mean (processed : List ComparisonRow) :
    avgDiff processed = specMean (processed.map (fun r => r.difference)) ∧
    (((processed.map (fun r => r.difference)).all (fun d => jsIsNaN d)) = true →
      avgDiff processed = none) := by
  constructor
  · simp only [avgDiff, specMean, validDifferences]
    rw [foldl_jsAdd_eq_sum _ 0 (mem_filter_isSome _), filterMap_filter_isSome,
      length_filter_isSome]
    simp [jsDivLen]
  · exact fun h => avgDiff_eq_none_of_all_nan processed h

/-- Witness for C2 at the empty dataset: the mean agrees with the
specification's mean and is `NaN`. -/
theorem avgDiff_is_mean_witness :
    avgDiff [] = specMean (([] : List ComparisonRow).map (fun r => r.difference)) ∧
    avgDiff [] = none :=
  ⟨(avgDiff_is_mean []).1, (avgDiff_is_mean []).2 (by decide)⟩

/-- C3: when the file read fails, the `catch` block only logs and clears
the loading flag: for every parse capability and every error, the state
after `loadData` has an empty dataset and `loading = false`.  No exception
escapes to the caller: `loadData` is total by construction. -/
theorem loadFailure_leaves_empty_data (parse : String → List RawRow) (e : String) :
    (loadData parse (Except.error e) initialState).data = [] ∧
    (loadData parse (Except.error e) initialState).loading = false :=
  ⟨rfl, rfl⟩

/-- `processedDataFrom` preserves the length of the input. -/
lemma processedDataFrom_length (i : ℕ) (rows : List RawRow) :
    (processedDataFrom i rows).length = rows.length := by
  induction rows generalizing i with
  | nil => rfl
  | cons r t ih => simp [processedDataFrom, ih]

/-- The `k`-th output of `processedDataFrom i` is the `k`-th input row
processed at index `i + k`. -/
lemma processedDataFrom_getElem (i k : ℕ) (rows : List RawRow) :
    (processedDataFrom i rows)[k]? = (rows[k]?).map (fun row => processRow (i + k) row) := by
  induction rows generalizing i k with
  | nil => simp [processedDataFrom]
  | cons r t ih =>
    cases k with
    | zero => simp [processedDataFrom]
    | succ k =>
      have harith : i + 1 + k = i + (k + 1) := by omega
      simp [processedDataFrom, ih (i + 1) k, harith]

/-- C4: the Transformer output has the same length as the input and
preserves order: the `i`-th output row is `processRow i` applied to the
`i`-th input row — no reordering, no dropped or added rows. -/
theorem processedData_length_and_order (rows : List RawRow) :
    (processedData rows).length = rows.length ∧
    ∀ i : ℕ, (processedData rows)[i]? = (rows[i]?).map (fun row => processRow i row) := by
  refine ⟨processedDataFrom_length 0 rows, fun i => ?_⟩
  have h := processedDataFrom_getElem 0 i rows
  simpa using h

/-- C5: on a dataset whose differences are all defined numbers, the
rendered win / loss / tie counts partition the rows exactly. -/
theorem counts_partition (data : List ComparisonRow)
    (h : ∀ r ∈ data, (r.difference).isSome = true) :
    winCount data + lossCount data + tieCount data = data.length := by
  induction data with
  | nil => rfl
  | cons r t ih =>
    obtain ⟨x, hx⟩ := Option.isSome_iff_exists.1 (h r (List.mem_cons_self r t))
    have ht : ∀ b ∈ t, (b.difference).isSome = true :=
      fun b hb => h b (List.mem_cons_of_mem _ hb)
    have iht := ih ht
    rcases lt_trichotomy x 0 with hlt | heq | hgt
    · have e1 : jsGtZero (r.difference) = false := by
        simp [jsGtZero, hx]; linarith
      have e2 : jsLtZero (r.difference) = true := by simp [jsLtZero, hx, hlt]
      have e3 : jsEqZero (r.difference) = false := by simp [jsEqZero, hx, hlt.ne]
      simp only [winCount, lossCount, tieCount, List.filter_cons, e1, e2, e3] at *
      simp only [List.length_cons, Bool.false_eq_true, if_false, if_true]
      omega
    · have e1 : jsGtZero (r.difference) = false := by simp [jsGtZero, hx, heq]
      have e2 : jsLtZero (r.difference) = false := by simp [jsLtZero, hx, heq]
      have e3 : jsEqZero (r.difference) = true := by simp [jsEqZero, hx, heq]
      simp only [winCount, lossCount, tieCount, List.filter_cons, e1, e2, e3] at *
      simp only [List.length_cons, Bool.false_eq_true, if_false, if_true]
      omega
    · have e1 : jsGtZero (r.difference) = true := by simp [jsGtZero, hx, hgt]
      have e2 : jsLtZero (r.difference) = false := by
        simp [jsLtZero, hx]; linarith
      have e3 : jsEqZero (r.difference) = false := by simp [jsEqZero, hx, hgt.ne']
      simp only [winCount, lossCount, tieCount, List.filter_cons, e1, e2, e3] at *
      simp only [List.length_cons, Bool.false_eq_true, if_false, if_true]
      omega

/-- Witness for C5: on `sampleData` every difference is defined and the
counts partition its three rows. -/
theorem counts_partition_witness :
    (∀ r ∈ sampleData, (r.difference).isSome = true) ∧
    winCount sampleData + lossCount sampleData + tieCount sampleData = sampleData.length :=
  ⟨by decide, counts_partition sampleData (by decide)⟩

/-- C6: the derived `rowIndex` is the `Row Index` column value whenever
that column is present (not `undefined`), and the row's zero-based position
otherwise. -/
theorem rowIndex_from_column_or_position (row : RawRow) (i : ℕ) :
    (row "Row Index" ≠ JSVal.undef → (processRow i row).rowIndex = row "Row Index") ∧
    (row "Row Index" = JSVal.undef → (processRow i row).rowIndex = JSVal.num i) := by
  constructor <;> intro h <;> rw [processRow_rowIndex]
  · rw [if_neg h]
  · rw [if_pos h]

/-- Witness for C6: at position 3, a row with `Row Index = 7` keeps 7, and
a row without the column gets its position 3. -/
theorem rowIndex_from_column_or_position_witness :
    (rowWithIndex "Row Index" ≠ JSVal.undef ∧
      (processRow 3 rowWithIndex).rowIndex = rowWithIndex "Row Index") ∧
    (rowNoIndex "Row Index" = JSVal.undef ∧
      (processRow 3 rowNoIndex).rowIndex = JSVal.num 3) :=
  ⟨⟨by decide, (rowIndex_from_column_or_position rowWithIndex 3).1 (by decide)⟩,
   ⟨rfl, (rowIndex_from_column_or_position rowNoIndex 3).2 rfl⟩⟩

/-- The computed difference of a processed row does not depend on the
`Difference` column. -/
lemma processRow_difference_congr (i : ℕ) (r1 r2 : RawRow)
    (h : AgreeExceptDifference r1 r2) :
    (processRow i r1).difference = (processRow i r2).difference := by
  rw [processRow_difference, processRow_difference,
    h "Neural Net (AUROC)" (by decide), h "Xgboost (AUROC)" (by decide)]

/-- Row sequences agreeing outside `Difference` yield the same sequence of
computed differences. -/
lemma processedDataFrom_difference_congr (rows1 rows2 : List RawRow)
    (h : List.Forall₂ AgreeExceptDifference rows1 rows2) (i : ℕ) :
    (processedDataFrom i rows1).map (fun r => r.difference)
      = (processedDataFrom i rows2).map (fun r => r.difference) := by
  induction h generalizing i with
  | nil => rfl
  | cons hr ht ih =>
    simp [processedDataFrom, processRow_difference_congr i _ _ hr, ih (i + 1)]

/-- `avgDiff` only depends on the sequence of differences. -/
lemma avgDiff_congr (p1 p2 : List ComparisonRow)
    (h : p1.map (fun r => r.difference) = p2.map (fun r => r.difference)) :
    avgDiff p1 = avgDiff p2 := by
  simp only [avgDiff, validDifferences, h]

/-- C7: the `Difference` column is dead for the displayed computations:
two row sequences that agree on all columns except `Difference` produce
identical computed difference sequences and an identical average —
`originalDifference` is carried through but never used. -/
theorem difference_column_noninterference (rows1 rows2 : List RawRow)
    (h : List.Forall₂ AgreeExceptDifference rows1 rows2) :
    (processedData rows1).map (fun r => r.difference)
      = (processedData rows2).map (fun r => r.difference) ∧
    avgDiff (processedData rows1) = avgDiff (processedData rows2) := by
  have hm := processedDataFrom_difference_congr rows1 rows2 h 0
  exact ⟨hm, avgDiff_congr _ _ hm⟩

/-- Witness for C7: two one-row sequences differing only in the
`Difference` column have the same computed differences. -/
theorem difference_column_noninterference_witness :
    List.Forall₂ AgreeExceptDifference [rowDiffFive] [rowDiffSeven] ∧
    (processedData [rowDiffFive]).map (fun r => r.difference)
      = (processedData [rowDiffSeven]).map (fun r => r.difference) := by
  have hf : List.Forall₂ AgreeExceptDifference [rowDiffFive] [rowDiffSeven] := by
    refine List.Forall₂.cons ?_ List.Forall₂.nil
    intro c hc
    simp [rowDiffFive, rowDiffSeven, hc]
  exact ⟨hf, (difference_column_noninterference _ _ hf).1⟩

/-- C8: the parse-transform-aggregate pipeline is deterministic: for a
fixed parse capability, the state committed by `loadData` on a successful
read is a function of the raw text alone — two runs on identical raw
text, from any two prior states, commit identical `data` and
`avgDifference` (the model has no clock, no randomness and no hidden
store, so no other dependence exists). -/
theorem pipeline_deterministic (parse : String → List RawRow) (raw : String)
    (s1 s2 : ComponentState) :
    loadData parse (Except.ok raw) s1 = loadData parse (Except.ok raw) s2 := rfl

/-- `||` keeps a nonzero number. -/
lemma jsOr_num_nonzero (q : ℚ) (b : JSVal) (h : q ≠ 0) :
    jsOr (JSVal.num q) b = JSVal.num q := by
  simp [jsOr, truthy, h]

/-- Subtraction of two finite numbers. -/
lemma jsSub_num (x y : ℚ) : jsSub (JSVal.num x) (JSVal.num y) = some (x - y) := rfl

/-- The processed difference of the first scenario row is the exact value
of the program's double subtraction `0.85 - 0.90`: the operands lie within
a factor of two of each other, so by Sterbenz's lemma the IEEE difference
is exact and coincides with the exact-rational subtraction. -/
lemma ieee_diff_zero :
    (processRow 0 ieeeRowZero).difference = some (-(450359962737050 / 2 ^ 53)) := by
  have h1 : ieeeRowZero "Neural Net (AUROC)" = JSVal.num double085 := by
    simp [ieeeRowZero]
  have h2 : ieeeRowZero "Xgboost (AUROC)" = JSVal.num double090 := by
    simp [ieeeRowZero]
  rw [processRow_difference, h1, h2, jsOr_num_nonzero _ _ (by norm_num [double085]),
    jsOr_num_nonzero _ _ (by norm_num [double090]), jsSub_num]
  norm_num [double085, double090]

/-- The processed difference of the second scenario row, again the exact
value of the program's `0.95 - 0.80` (Sterbenz, operands within a factor
of two). -/
lemma ieee_diff_one :
    (processRow 1 ieeeRowOne).difference = some (1351079888211148 / 2 ^ 53) := by
  have h1 : ieeeRowOne "Neural Net (AUROC)" = JSVal.num double095 := by
    simp [ieeeRowOne]
  have h2 : ieeeRowOne "Xgboost (AUROC)" = JSVal.num double080 := by
    simp [ieeeRowOne]
  rw [processRow_difference, h1, h2, jsOr_num_nonzero _ _ (by norm_num [double095]),
    jsOr_num_nonzero _ _ (by norm_num [double080]), jsSub_num]
  norm_num [double095, double080]

/-- The differences computed for the scenario rows. -/
lemma ieee_map :
    (processedData [ieeeRowZero, ieeeRowOne]).map (fun r => r.difference)
      = [some (-(450359962737050 / 2 ^ 53)), some (1351079888211148 / 2 ^ 53)] := by
  simp [processedData, processedDataFrom, ieee_diff_zero, ieee_diff_one]

/-- C9 counterexample: on the scenario input as the program receives it —
the AUROC literals `0.90`, `0.85`, `0.80`, `0.95` denote binary64 doubles,
not the exact decimals — the pipeline does not produce differences `-0.05`
and `0.15` and does not produce average `0.05`: rounding of the inputs
shifts every computed value (to ≈ -0.050000000000000044,
≈ 0.1499999999999999 and ≈ 0.04999999999999993). -/
theorem scenario_two_rows_counterexample :
    ¬ ((processedData [ieeeRowZero, ieeeRowOne]).map (fun r => r.difference)
        = [some (-1 / 20), some (3 / 20)] ∧
      avgDiff (processedData [ieeeRowZero, ieeeRowOne]) = some (1 / 20)) := by
  intro h
  have hm := h.1
  rw [ieee_map] at hm
  simp only [List.cons.injEq, Option.some.injEq] at hm
  have h0 := hm.1
  norm_num at h0

/-- C9 (amended): on the two scenario rows, with the AUROC inputs being
the binary64 doubles the decimal literals denote, the pipeline computes
differences `-450359962737050/2^53` (≈ -0.050000000000000044) and
`1351079888211148/2^53` (≈ 0.1499999999999999), average
`450359962737049/2^53` (≈ 0.04999999999999993), one win, one loss and no
tie.  These exact rationals are bit-for-bit the program's own doubles:
both subtractions are exact by Sterbenz's lemma, the accumulated sum
`450359962737049/2^52` has a 49-bit numerator and is therefore exactly
representable, and the final division by the count `2` only decrements
the exponent. -/
theorem scenario_two_rows_ieee :
    (processedData [ieeeRowZero, ieeeRowOne]).map (fun r => r.difference)
      = [some (-(450359962737050 / 2 ^ 53)), some (1351079888211148 / 2 ^ 53)] ∧
    avgDiff (processedData [ieeeRowZero, ieeeRowOne]) = some (450359962737049 / 2 ^ 53) ∧
    winCount (processedData [ieeeRowZero, ieeeRowOne]) = 1 ∧
    lossCount (processedData [ieeeRowZero, ieeeRowOne]) = 1 ∧
    tieCount (processedData [ieeeRowZero, ieeeRowOne]) = 0 := by
  refine ⟨ieee_map, ?_, ?_, ?_, ?_⟩
  · simp only [avgDiff, validDifferences, ieee_map]
    norm_num [jsIsNaN, jsAdd, jsDivLen, List.filter_cons]
  · norm_num [winCount, processedData, processedDataFrom, List.filter_cons,
      ieee_diff_zero, ieee_diff_one, jsGtZero]
  · norm_num [lossCount, processedData, processedDataFrom, List.filter_cons,
      ieee_diff_zero, ieee_diff_one, jsLtZero]
  · norm_num [tieCount, processedData, processedDataFrom, List.filter_cons,
      ieee_diff_zero, ieee_diff_one, jsEqZero]

/-- C10: after a failed load the stored average keeps its initial value
`0`, while a successful load whose dataset has no defined difference (in
particular an empty dataset) stores `NaN` — observably different values. -/
theorem failure_vs_empty_average (parse : String → List RawRow) (e raw : String)
    (h : (((processedData (parse raw)).map (fun r => r.difference)).all
      (fun d => jsIsNaN d)) = true) :
    (loadData parse (Except.error e) initialState).avgDifference = some 0 ∧
    (loadData parse (Except.ok raw) initialState).avgDifference = none ∧
    (some (0 : ℚ) : JSNum) ≠ (none : JSNum) := by
  refine ⟨rfl, ?_, by decide⟩
  show avgDiff (processedData (parse raw)) = none
  exact avgDiff_eq_none_of_all_nan _ h

/-- Witness for C10: with a parse yielding no rows, the failure path keeps
the average at `0` and the empty-success path stores `NaN`. -/
theorem failure_vs_empty_average_witness :
    ((((processedData ((fun _ => []) "")).map (fun r => r.difference)).all
      (fun d => jsIsNaN d)) = true) ∧
    (loadData (fun _ => []) (Except.error "e") initialState).avgDifference = some 0 ∧
    (loadData (fun _ => []) (Except.ok "") initialState).avgDifference = none :=
  ⟨by decide,
   (failure_vs_empty_average (fun _ => []) "e" "" (by decide)).1,
   (failure_vs_empty_average (fun _ => []) "e" "" (by decide)).2.1⟩
